import Mathlib

/-!
# The gorse HTTP gateway (`main.go`)

A shallow embedding of the request handlers, the `Logger` middleware and the
route table of `main.go`, followed by the properties claimed of them.

The program talks to four things it does not own: the `encoding/json`
decoder and encoder, the wall clock (`time.Now`), the gorse client and the
`http.ResponseWriter`.  Each is modelled explicitly:

* a request body is what the decoder's scanner makes of it (`Body`): nothing,
  no JSON value, or the first JSON value of the stream (`Json`);
* the clock and the backend are oracles stored in the `World`; every reading
  and every backend call is recorded there;
* the response writer is a record of header, status line and body;
* the two CORS middlewares registered by `main` are modelled by their control
  flow (a preflight is answered by the middleware, anything else is passed
  on); the header fields they add are a parameter.
-/

namespace Gorse

/-! ## Go values -/

/-- A Go `[]string`: `none` is the nil slice, `some xs` a non-nil slice, possibly of length 0. -/
abbrev Slice := Option (List String)

/-- A Go `error`: `none` is the nil error. -/
abbrev Error := Option String

/-- A `time.Time` as returned by `time.Now()`: the wall-clock instant (`sec`, `nsec` since the
Unix epoch), the offset of its location in seconds east of UTC, and the monotonic reading in
nanoseconds that `time.Since` subtracts. -/
structure Time where
  sec : Int
  nsec : Nat
  offset : Int
  mono : Int
deriving DecidableEq, Repr

/-! ## `time.Time.Format(time.RFC3339)` -/

/-- Decimal digits of `n`, zero-padded on the left to `width` (Go's `appendInt`). -/
def appendInt (width : Nat) (n : Nat) : String :=
  let ds := Nat.toDigits 10 n
  String.mk (List.replicate (width - ds.length) '0' ++ ds)

/-- Proleptic Gregorian date (year, month, day) of a day number counted from 1970-01-01, the
date `Time.Date` computes. -/
def civil (days : Int) : Int × Nat × Nat :=
  let z := days + 719468
  let era := z / 146097
  let doe := (z % 146097).toNat
  let yoe := (doe - doe / 1460 + doe / 36524 - doe / 146096) / 365
  let doy := doe - (365 * yoe + yoe / 4 - yoe / 100)
  let mp := (5 * doy + 2) / 153
  let d := doy - (153 * mp + 2) / 5 + 1
  let m := if mp < 10 then mp + 3 else mp - 9
  let y := (yoe : Int) + era * 400
  (if m ≤ 2 then y + 1 else y, m, d)

/-- The zone suffix of the layout element `Z07:00`: `Z` at offset 0, otherwise sign, hours and
minutes of the offset truncated to whole minutes. -/
def zoneSuffix (offset : Int) : String :=
  if offset = 0 then "Z"
  else
    let zone := offset.natAbs / 60
    (if offset ≤ -60 then "-" else "+") ++ appendInt 2 (zone / 60) ++ ":" ++ appendInt 2 (zone % 60)

/-- The layout `time.RFC3339`, `2006-01-02T15:04:05Z07:00`, applied to a time. -/
def formatRFC3339 (t : Time) : String :=
  let abs := t.sec + t.offset
  let (y, m, d) := civil (abs / 86400)
  let s := (abs % 86400).toNat
  (if y < 0 then "-" else "") ++ appendInt 4 y.natAbs ++ "-" ++ appendInt 2 m ++ "-" ++ appendInt 2 d
    ++ "T" ++ appendInt 2 (s / 3600) ++ ":" ++ appendInt 2 (s / 60 % 60) ++ ":" ++ appendInt 2 (s % 60)
    ++ zoneSuffix t.offset

/-! ## JSON values and request bodies

The decoder is the one of `encoding/json`, modelled after its documented behaviour: `Decode`
reads one complete JSON value and fails with nothing stored when there is none; the members of
an object are stored in order into the fields their keys select; a value that does not fit its
field is skipped, the earliest such error is returned at the end, and the other members are
stored all the same; `null` leaves a string, a boolean or an integer as it was and makes a
slice nil; a key that selects no field is ignored. -/

/-- A JSON value as the decoder sees it.  A number is either an integer literal (`int`) or a
literal with a fraction or an exponent (`real`), which no field of this program accepts. -/
inductive Json where
  | null
  | bool (b : Bool)
  | int (n : Int)
  | real (lit : String)
  | str (s : String)
  | arr (elems : List Json)
  | obj (members : List (String × Json))

/-- What `json.NewDecoder(r.Body)` finds in a request body. -/
inductive Body where
  /-- no bytes at all: `Decode` returns `io.EOF` -/
  | empty
  /-- the bytes do not start with a complete JSON value: `Decode` returns a `SyntaxError` -/
  | malformed
  /-- the first JSON value of the stream -/
  | value (j : Json)

/-- The errors `Decode` can return. -/
inductive DecodeError where
  | eof
  | invalid
  | mismatch
deriving DecidableEq, Repr

/-- Case folding of one rune of an object key (`foldRune`): ASCII letters to upper case, and the
two non-ASCII runes whose fold orbit contains an ASCII letter (KELVIN SIGN, LONG S). -/
def foldRune (c : Char) : Char :=
  if c = Char.ofNat 0x212A then 'K'
  else if c = Char.ofNat 0x17F then 'S'
  else c.toUpper

/-- Folded form of a key (`foldName`). -/
def foldName (s : String) : String :=
  String.mk (s.data.map foldRune)

/-- A key selects the struct field tagged `name` on an exact match or, failing that, on a
case-insensitive one.  The tags of one struct are pairwise distinct after folding, so at most
one field is selected. -/
def keyMatches (name key : String) : Bool :=
  key == name || foldName key == foldName name

/-- Storing a JSON value into a `string`: a string is stored, `null` is a no-op, anything else
saves an `UnmarshalTypeError` and leaves the target as it was. -/
def storeString (old : String) : Json → String × Option DecodeError
  | .str s => (s, none)
  | .null => (old, none)
  | _ => (old, some .mismatch)

/-- Storing a JSON value into a `bool`. -/
def storeBool (old : Bool) : Json → Bool × Option DecodeError
  | .bool b => (b, none)
  | .null => (old, none)
  | _ => (old, some .mismatch)

/-- Storing a JSON value into an `int` (64 bits): an integer literal in range is stored; a
literal out of range or with a fraction or exponent is an error. -/
def storeInt (old : Int) : Json → Int × Option DecodeError
  | .int n => if -(2 : Int) ^ 63 ≤ n ∧ n < (2 : Int) ^ 63 then (n, none) else (old, some .mismatch)
  | .null => (old, none)
  | _ => (old, some .mismatch)

/-- Storing the elements of a JSON array into a slice: element `i` is decoded into the element
already at index `i` when the slice had one, into a zero string otherwise. -/
def storeElems : List String → List Json → List String × Option DecodeError
  | _, [] => ([], none)
  | old, j :: js =>
    let r := storeString (old.headD "") j
    let rs := storeElems old.tail js
    (r.1 :: rs.1, r.2 <|> rs.2)

/-- Storing a JSON value into a `[]string`: an array yields a non-nil slice of its elements,
`null` yields the nil slice, anything else saves an error and leaves the slice as it was. -/
def storeSlice (old : Slice) : Json → Slice × Option DecodeError
  | .arr js =>
    let r := storeElems (old.getD []) js
    (some r.1, r.2)
  | .null => (none, none)
  | _ => (old, some .mismatch)

/-- Decoding the members of a JSON object into a struct, in order; `assign` stores one member.
The earliest error is kept and decoding goes on. -/
def decodeObject {α : Type} (assign : α → String → Json → α × Option DecodeError) :
    α → List (String × Json) → α × Option DecodeError
  | d, [] => (d, none)
  | d, kv :: rest =>
    let r := assign d kv.1 kv.2
    let rs := decodeObject assign r.1 rest
    (rs.1, r.2 <|> rs.2)

/-- The call `json.NewDecoder(r.Body).Decode(&data)` on a struct `data`: the struct after the
call and the error returned. -/
def Decode {α : Type} (assign : α → String → Json → α × Option DecodeError) (data : α) :
    Body → α × Option DecodeError
  | .empty => (data, some .eof)
  | .malformed => (data, some .invalid)
  | .value (.obj members) => decodeObject assign data members
  | .value .null => (data, none)
  | .value _ => (data, some .mismatch)

/-! ## The structs the handlers decode into -/

/-- The anonymous struct of `insertUser` and of `updateUser`. -/
structure UserData where
  UserID : String := ""
  Comment : String := ""
  Labels : Slice := none
deriving DecidableEq, Repr

/-- The anonymous struct of `insertItem`. -/
structure ItemData where
  ItemID : String := ""
  Comment : String := ""
  Categories : Slice := none
  Labels : Slice := none
deriving DecidableEq, Repr

/-- The anonymous struct of `updateItem`. -/
structure ItemUpdateData where
  ItemID : String := ""
  Comment : String := ""
  IsHidden : Bool := false
  Categories : Slice := none
  Labels : Slice := none
deriving DecidableEq, Repr

/-- The anonymous struct of `insertFeedbacks`. -/
structure FeedbackData where
  FeedbackType : String := ""
  UserID : String := ""
  ItemID : String := ""
deriving DecidableEq, Repr

/-- The anonymous struct of `getRecommend`. -/
structure RecommendData where
  N : Int := 0
  UserID : String := ""
deriving DecidableEq, Repr

/-- One object member stored into the struct of `insertUser` / `updateUser`, by its tags
`UserId`, `Comment`, `Labels`; a key that selects no field is skipped. -/
def UserData.assign (d : UserData) (key : String) (v : Json) : UserData × Option DecodeError :=
  if keyMatches "UserId" key then
    let r := storeString d.UserID v
    ({ d with UserID := r.1 }, r.2)
  else if keyMatches "Comment" key then
    let r := storeString d.Comment v
    ({ d with Comment := r.1 }, r.2)
  else if keyMatches "Labels" key then
    let r := storeSlice d.Labels v
    ({ d with Labels := r.1 }, r.2)
  else (d, none)

/-- One object member stored into the struct of `insertItem`. -/
def ItemData.assign (d : ItemData) (key : String) (v : Json) : ItemData × Option DecodeError :=
  if keyMatches "ItemId" key then
    let r := storeString d.ItemID v
    ({ d with ItemID := r.1 }, r.2)
  else if keyMatches "Comment" key then
    let r := storeString d.Comment v
    ({ d with Comment := r.1 }, r.2)
  else if keyMatches "Categories" key then
    let r := storeSlice d.Categories v
    ({ d with Categories := r.1 }, r.2)
  else if keyMatches "Labels" key then
    let r := storeSlice d.Labels v
    ({ d with Labels := r.1 }, r.2)
  else (d, none)

/-- One object member stored into the struct of `updateItem`. -/
def ItemUpdateData.assign (d : ItemUpdateData) (key : String) (v : Json) :
    ItemUpdateData × Option DecodeError :=
  if keyMatches "ItemId" key then
    let r := storeString d.ItemID v
    ({ d with ItemID := r.1 }, r.2)
  else if keyMatches "Comment" key then
    let r := storeString d.Comment v
    ({ d with Comment := r.1 }, r.2)
  else if keyMatches "IsHidden" key then
    let r := storeBool d.IsHidden v
    ({ d with IsHidden := r.1 }, r.2)
  else if keyMatches "Categories" key then
    let r := storeSlice d.Categories v
    ({ d with Categories := r.1 }, r.2)
  else if keyMatches "Labels" key then
    let r := storeSlice d.Labels v
    ({ d with Labels := r.1 }, r.2)
  else (d, none)

/-- One object member stored into the struct of `insertFeedbacks`. -/
def FeedbackData.assign (d : FeedbackData) (key : String) (v : Json) :
    FeedbackData × Option DecodeError :=
  if keyMatches "FeedbackType" key then
    let r := storeString d.FeedbackType v
    ({ d with FeedbackType := r.1 }, r.2)
  else if keyMatches "UserId" key then
    let r := storeString d.UserID v
    ({ d with UserID := r.1 }, r.2)
  else if keyMatches "ItemId" key then
    let r := storeString d.ItemID v
    ({ d with ItemID := r.1 }, r.2)
  else (d, none)

/-- One object member stored into the struct of `getRecommend`, by its tags `n`, `userId`. -/
def RecommendData.assign (d : RecommendData) (key : String) (v : Json) :
    RecommendData × Option DecodeError :=
  if keyMatches "n" key then
    let r := storeInt d.N v
    ({ d with N := r.1 }, r.2)
  else if keyMatches "userId" key then
    let r := storeString d.UserID v
    ({ d with UserID := r.1 }, r.2)
  else (d, none)

/-! ## The gorse client -/

/-- The type `client.User`. -/
structure User where
  UserId : String
  Comment : String
  Labels : Slice
deriving DecidableEq, Repr

/-- The type `client.UserPatch`; a nil pointer or nil slice asks for no change. -/
structure UserPatch where
  Comment : Option String
  Labels : Slice
deriving DecidableEq, Repr

/-- The type `client.Item`. -/
structure Item where
  ItemId : String
  Comment : String
  Categories : Slice
  Labels : Slice
  Timestamp : String
deriving DecidableEq, Repr

/-- The type `client.ItemPatch`; every field is a pointer or a slice, nil asking for no change. -/
structure ItemPatch where
  IsHidden : Option Bool
  Categories : Slice
  Timestamp : Option Time
  Labels : Slice
  Comment : Option String
deriving DecidableEq, Repr

/-- The type `client.Feedback`. -/
structure Feedback where
  FeedbackType : String
  UserId : String
  ItemId : String
  Timestamp : String
deriving DecidableEq, Repr

/-- One operation invoked on the gorse client, with its arguments. -/
inductive Call where
  | InsertUser (user : User)
  | UpdateUser (userId : String) (patch : UserPatch)
  | InsertItem (item : Item)
  | UpdateItem (itemId : String) (patch : ItemPatch)
  | InsertFeedback (feedbacks : List Feedback)
  | GetRecommend (userId : String) (category : String) (n : Int)
deriving DecidableEq, Repr

/-- The backend behind the client, as an oracle: what an operation returns may depend on the
operation and on every call made before it.  A mutating operation returns a row count and an
error, `GetRecommend` a slice of item identifiers and an error. -/
structure GorseClient where
  exec : List Call → Call → Int × Error
  recommend : List Call → Call → Slice × Error

/-- One line written by `log.Printf` in `Logger`: the four arguments of the format. -/
structure LogEntry where
  method : String
  requestURI : String
  elapsed : Int
  userAgent : String
deriving DecidableEq, Repr

/-- Everything outside the handler: the clock (`clock k` is the result of the `k`-th call of
`time.Now()`, `reads` counts the calls made), the backend, the backend calls made so far and the
access log, both oldest first. -/
structure World where
  clock : Nat → Time
  reads : Nat
  gorse : GorseClient
  calls : List Call
  logs : List LogEntry

/-- The call `time.Now()`. -/
def World.Now (env : World) : Time × World :=
  (env.clock env.reads, { env with reads := env.reads + 1 })

/-- A mutating operation of the client: one round trip, recorded in `calls`. -/
def World.exec (env : World) (c : Call) : (Int × Error) × World :=
  (env.gorse.exec env.calls c, { env with calls := env.calls ++ [c] })

/-- The operation `gorse.GetRecommend(ctx, userId, category, n)`. -/
def World.GetRecommend (env : World) (userId category : String) (n : Int) :
    (Slice × Error) × World :=
  (env.gorse.recommend env.calls (.GetRecommend userId category n),
    { env with calls := env.calls ++ [.GetRecommend userId category n] })

/-- The call `log.Printf` of `Logger`. -/
def World.Printf (env : World) (e : LogEntry) : World :=
  { env with logs := env.logs ++ [e] }

/-! ## Requests and the response writer -/

/-- The parts of an `*http.Request` the program reads. -/
structure Request where
  Method : String
  Path : String
  RequestURI : String
  UserAgent : String
  Body : Body

/-- An `http.ResponseWriter`: the header map, the status line (`none` until it is written) and
the body bytes written so far. -/
structure ResponseWriter where
  header : List (String × String) := []
  status : Option Nat := none
  body : String := ""
deriving DecidableEq, Repr

/-- The method `WriteHeader`: the first call fixes the status, later calls are ignored. -/
def ResponseWriter.WriteHeader (w : ResponseWriter) (code : Nat) : ResponseWriter :=
  match w.status with
  | none => { w with status := some code }
  | some _ => w

/-- The method `Write`: writes the status line 200 if none was written, then the bytes. -/
def ResponseWriter.Write (w : ResponseWriter) (s : String) : ResponseWriter :=
  let w := w.WriteHeader 200
  { w with body := w.body ++ s }

/-- A handler: from the request, the writer and the world to the writer and the world after. -/
abbrev Handler := Request → ResponseWriter → World → ResponseWriter × World

/-! ## `json.NewEncoder(w).Encode(rec)` for a `[]string` -/

/-- The double quote. -/
def quote : Char := Char.ofNat 34

/-- The backslash. -/
def backslash : Char := Char.ofNat 92

/-- Lower-case hexadecimal digit. -/
def hexDigit (n : Nat) : Char :=
  if n < 10 then Char.ofNat (48 + n) else Char.ofNat (87 + n)

/-- The escape `\uXXXX` of a code point below 0x10000. -/
def unicodeEscape (n : Nat) : List Char :=
  [backslash, 'u', hexDigit (n / 4096 % 16), hexDigit (n / 256 % 16), hexDigit (n / 16 % 16),
    hexDigit (n % 16)]

/-- How the encoder writes one rune of a string, HTML escaping on (the default of an `Encoder`).
Backspace and form feed are written as `\b` and `\f` from Go 1.22 on and as `\u0008`,
`\u000c` by older releases; the form of Go 1.22 is taken here.  A Go string may hold bytes that
are not UTF-8, which the encoder replaces by `\ufffd`; strings here are sequences of runes. -/
def escapeRune (c : Char) : List Char :=
  if c = quote ∨ c = backslash then [backslash, c]
  else if c = Char.ofNat 8 then [backslash, 'b']
  else if c = Char.ofNat 12 then [backslash, 'f']
  else if c = Char.ofNat 10 then [backslash, 'n']
  else if c = Char.ofNat 13 then [backslash, 'r']
  else if c = Char.ofNat 9 then [backslash, 't']
  else if c.toNat < 32 ∨ c = '<' ∨ c = '>' ∨ c = '&' ∨ c.toNat = 0x2028 ∨ c.toNat = 0x2029 then
    unicodeEscape c.toNat
  else [c]

/-- A string as a JSON string literal. -/
def encodeString (s : String) : List Char :=
  quote :: (s.data.flatMap escapeRune ++ [quote])

/-- The elements of an array, separated by commas. -/
def encodeElems : List String → List Char
  | [] => []
  | [s] => encodeString s
  | s :: t :: rest => encodeString s ++ ',' :: encodeElems (t :: rest)

/-- What `Encode` writes for a `[]string`: `null` for the nil slice, an array otherwise, and a
newline after it. -/
def Encode : Slice → String
  | none => "null\n"
  | some xs => String.mk ('[' :: (encodeElems xs ++ [']', Char.ofNat 10]))

/-- Value of a lower-case hexadecimal digit. -/
def hexValue (c : Char) : Nat :=
  if c.toNat < 58 then c.toNat - 48 else c.toNat - 87

/-- Reads back one rune written by `escapeRune` from the front of a text. -/
def unescapeRune : List Char → Option (Char × List Char)
  | [] => none
  | c :: rest =>
    if c = backslash then
      match rest with
      | [] => none
      | x :: rest =>
        if x = 'u' then
          match rest with
          | d1 :: d2 :: d3 :: d4 :: rest =>
            some (Char.ofNat (4096 * hexValue d1 + 256 * hexValue d2 + 16 * hexValue d3
              + hexValue d4), rest)
          | _ => none
        else if x = 'b' then some (Char.ofNat 8, rest)
        else if x = 'f' then some (Char.ofNat 12, rest)
        else if x = 'n' then some (Char.ofNat 10, rest)
        else if x = 'r' then some (Char.ofNat 13, rest)
        else if x = 't' then some (Char.ofNat 9, rest)
        else some (x, rest)
    else some (c, rest)

/-! ## `main.go` -/

/-- The middleware `Logger`: reads the clock, runs `next`, then logs method, request URI,
`time.Since(start)` and user agent. -/
def Logger (next : Handler) : Handler := fun r w env =>
  let (start, env) := env.Now
  let (w, env) := next r w env
  let (stop, env) := env.Now
  (w, env.Printf
    { method := r.Method, requestURI := r.RequestURI, elapsed := stop.mono - start.mono,
      userAgent := r.UserAgent })

/-- The handler of the route `/`. -/
def rootHandler : Handler := fun _ w env =>
  let w := w.WriteHeader 200
  let w := w.Write "Welcome to port 6666"
  (w, env)

/-- The handler `insertUser`. -/
def insertUser : Handler := fun r w env =>
  let data := (Decode UserData.assign {} r.Body).1
  let env := (env.exec
    (.InsertUser { UserId := data.UserID, Comment := data.Comment, Labels := data.Labels })).2
  let w := w.WriteHeader 200
  let w := w.Write "OK"
  (w, env)

/-- The handler `updateUser`. -/
def updateUser : Handler := fun r w env =>
  let data := (Decode UserData.assign {} r.Body).1
  let userPatch : UserPatch := { Comment := some data.Comment, Labels := data.Labels }
  let env := (env.exec (.UpdateUser data.UserID userPatch)).2
  let w := w.WriteHeader 200
  let w := w.Write "OK"
  (w, env)

/-- The handler `insertItem`. -/
def insertItem : Handler := fun r w env =>
  let data := (Decode ItemData.assign {} r.Body).1
  let (now, env) := env.Now
  let env := (env.exec
    (.InsertItem
      { ItemId := data.ItemID, Comment := data.Comment, Categories := data.Categories,
        Labels := data.Labels, Timestamp := formatRFC3339 now })).2
  let w := w.WriteHeader 200
  let w := w.Write "OK"
  (w, env)

/-- The handler `updateItem`.  The fields of `client.ItemPatch` that the composite literal does
not name (`IsHidden`) are nil. -/
def updateItem : Handler := fun r w env =>
  let data := (Decode ItemUpdateData.assign {} r.Body).1
  let (timestamp, env) := env.Now
  let itemPatch : ItemPatch :=
    { Comment := some data.Comment, Categories := data.Categories, Labels := data.Labels,
      Timestamp := some timestamp, IsHidden := none }
  let env := (env.exec (.UpdateItem data.ItemID itemPatch)).2
  let w := w.WriteHeader 200
  let w := w.Write "OK"
  (w, env)

/-- The handler `insertFeedbacks`. -/
def insertFeedbacks : Handler := fun r w env =>
  let data := (Decode FeedbackData.assign {} r.Body).1
  let (now, env) := env.Now
  let env := (env.exec
    (.InsertFeedback
      [{ FeedbackType := data.FeedbackType, UserId := data.UserID, ItemId := data.ItemID,
         Timestamp := formatRFC3339 now }])).2
  let w := w.WriteHeader 200
  let w := w.Write "OK"
  (w, env)

/-- The handler `getRecommend`. -/
def getRecommend : Handler := fun r w env =>
  let data := (Decode RecommendData.assign {} r.Body).1
  let (res, env) := env.GetRecommend data.UserID "" data.N
  let w := w.WriteHeader 200
  let w := w.Write (Encode res.1)
  (w, env)

/-- A route of the router: a path, the methods it is restricted to (`none`: any method) and
its handler. -/
structure Route where
  path : String
  methods : Option (List String)
  handler : Handler

/-- Whether a route matches a request. -/
def Route.matches (rt : Route) (r : Request) : Bool :=
  rt.path == r.Path &&
    (match rt.methods with
     | none => true
     | some ms => ms.contains r.Method)

/-- The route table registered by `main`, in registration order. -/
def routes : List Route :=
  [ { path := "/", methods := none, handler := rootHandler },
    { path := "/user/insert", methods := some ["POST"], handler := insertUser },
    { path := "/user/update", methods := some ["PATCH"], handler := updateUser },
    { path := "/item/insert", methods := some ["POST"], handler := insertItem },
    { path := "/item/update", methods := some ["PATCH"], handler := updateItem },
    { path := "/feedback/insert", methods := some ["POST"], handler := insertFeedbacks },
    { path := "/recommend/get", methods := some ["GET"], handler := getRecommend } ]

/-- The header of a request or of a response: fields in order, keys in canonical form. -/
abbrev Header := List (String × String)

/-- The method `Header.Get`: the first value of a field, the empty string when it is absent. -/
def headerGet (hdr : Header) (key : String) : String :=
  match hdr.find? (fun kv => kv.1 == key) with
  | some kv => kv.2
  | none => ""

/-- What the two CORS packages write into the response header.  Which fields they set differs
between their releases and no property below depends on it, so the three decorations are
parameters: each maps the request, its header and the response header so far to the response
header after. -/
structure CorsHeaders where
  allowMethods : Request → Header → Header → Header
  preflight : Request → Header → Header → Header
  actual : Request → Header → Header → Header

/-- A CORS preflight, as `cors.Handler` tests for it: the method is `OPTIONS` and the request
carries `Access-Control-Request-Method`. -/
def isPreflight (r : Request) (hdr : Header) : Bool :=
  r.Method == "OPTIONS" && headerGet hdr "Access-Control-Request-Method" != ""

/-- The middleware `mux.CORSMethodMiddleware(r)`: it may set `Access-Control-Allow-Methods` and
hands the request on.  No route of this router lists `OPTIONS` among its methods and `/` lists
none, so it never answers a request by itself. -/
def CORSMethodMiddleware (c : CorsHeaders) (hdr : Header) (next : Handler) : Handler :=
  fun r w env => next r { w with header := c.allowMethods r hdr w.header } env

/-- The middleware `cors.AllowAll().Handler`: a preflight is answered here, with the preflight
header fields and status 204 (`http.StatusNoContent`), and `next` does not run; any other
request gets the header fields of an actual request and is handed to `next`. -/
def corsHandler (c : CorsHeaders) (hdr : Header) (next : Handler) : Handler :=
  fun r w env =>
    if isPreflight r hdr then
      let w : ResponseWriter := { w with header := c.preflight r hdr w.header }
      (w.WriteHeader 204, env)
    else
      next r { w with header := c.actual r hdr w.header } env

/-- The router serving one request with header `hdr`: the handler of the first matching route
runs inside the middlewares in the order `main` registers them, `CORSMethodMiddleware`
outermost, then `cors.AllowAll().Handler`, then `Logger`; with no matching route the answer is
the framework's (`none`) and no middleware runs. -/
def ServeHTTP (c : CorsHeaders) (hdr : Header) (r : Request) (w : ResponseWriter) (env : World) :
    Option (ResponseWriter × World) :=
  match routes.find? (fun rt => rt.matches r) with
  | none => none
  | some rt =>
    some (CORSMethodMiddleware c hdr (corsHandler c hdr (Logger rt.handler)) r w env)

/-! ## Predicates used in the statements -/

/-- Whether no member of an object selects the field tagged `name`. -/
def omits (name : String) (ms : List (String × Json)) : Bool :=
  ms.all (fun kv => !keyMatches name kv.1)

/-- Whether a body holds a JSON object. -/
def Body.isObject : Body → Bool
  | .value (.obj _) => true
  | _ => false

/-- A response body is an array of identifiers when it is what the encoder writes for some
non-nil slice. -/
def IsIdentifierArray (s : String) : Prop :=
  ∃ xs : List String, s = Encode (some xs)

/-! ## Concrete inputs used by the examples -/

/-- A clock whose `k`-th reading is `k` seconds (and `k` milliseconds of monotonic time) after
2026-11-01T12:00:00Z. -/
def sampleClock : Nat → Time := fun k =>
  { sec := 1793534400 + k, nsec := 0, offset := 0, mono := 1000000 * k }

/-- A backend that acknowledges every mutation and recommends `i1`, `i2`, `i3`. -/
def sampleClient : GorseClient :=
  { exec := fun _ _ => (1, none), recommend := fun _ _ => (some ["i1", "i2", "i3"], none) }

/-- A backend that cannot be reached: every operation returns an error and no result. -/
def downClient : GorseClient :=
  { exec := fun _ _ => (0, some "connection refused"),
    recommend := fun _ _ => (none, some "connection refused") }

/-- A CORS decoration that allows every origin, and on a preflight the method asked for. -/
def sampleCors : CorsHeaders :=
  { allowMethods := fun _ _ h => h,
    preflight := fun _ hdr h =>
      h ++ [("Access-Control-Allow-Origin", "*"),
        ("Access-Control-Allow-Methods", headerGet hdr "Access-Control-Request-Method")],
    actual := fun _ _ h => h ++ [("Access-Control-Allow-Origin", "*")] }

/-- A world with nothing called and nothing logged yet. -/
def sampleWorld (c : GorseClient) : World :=
  { clock := sampleClock, reads := 0, gorse := c, calls := [], logs := [] }

/-- A request with the given method, path and body. -/
def sampleRequest (method path : String) (b : Body) : Request :=
  { Method := method, Path := path, RequestURI := path, UserAgent := "curl/8.5.0", Body := b }

/-! ## Lemmas on the decoder -/

theorem decodeObject_append {α : Type} (assign : α → String → Json → α × Option DecodeError)
    (a b : List (String × Json)) (d : α) :
    (decodeObject assign d (a ++ b)).1 = (decodeObject assign (decodeObject assign d a).1 b).1 := by
  induction a generalizing d with
  | nil => rfl
  | cons kv rest ih => simp [decodeObject, ih]

theorem decodeObject_keeps {α β : Type} (assign : α → String → Json → α × Option DecodeError)
    (f : α → β) (ms : List (String × Json))
    (h : ∀ d, ∀ kv ∈ ms, f (assign d kv.1 kv.2).1 = f d) (d : α) :
    f (decodeObject assign d ms).1 = f d := by
  induction ms generalizing d with
  | nil => rfl
  | cons kv rest ih =>
    simp only [decodeObject]
    rw [ih (fun d kv hk => h d kv (List.mem_cons_of_mem _ hk)), h d kv (List.mem_cons_self _ _)]

theorem storeElems_strs (xs : List String) (old : List String) :
    storeElems old (xs.map Json.str) = (xs, none) := by
  induction xs generalizing old with
  | nil => rfl
  | cons x rest ih => simp [storeElems, storeString, ih]

theorem omits_mem {name : String} {ms : List (String × Json)} (h : omits name ms = true)
    (kv : String × Json) (hk : kv ∈ ms) : keyMatches name kv.1 = false := by
  simp only [omits, List.all_eq_true] at h
  simpa using h kv hk

theorem Decode_not_object {α : Type} (assign : α → String → Json → α × Option DecodeError)
    (d : α) (b : Body) (h : b.isObject = false) : (Decode assign d b).1 = d := by
  cases b with
  | empty => rfl
  | malformed => rfl
  | value j => cases j <;> first | rfl | simp [Body.isObject] at h

theorem userData_keeps_Comment (d : UserData) (k : String) (v : Json)
    (h : keyMatches "Comment" k = false) : (UserData.assign d k v).1.Comment = d.Comment := by
  unfold UserData.assign
  split_ifs <;> simp_all

theorem userData_keeps_Labels (d : UserData) (k : String) (v : Json)
    (h : keyMatches "Labels" k = false) : (UserData.assign d k v).1.Labels = d.Labels := by
  unfold UserData.assign
  split_ifs <;> simp_all

theorem itemUpdate_keeps_Comment (d : ItemUpdateData) (k : String) (v : Json)
    (h : keyMatches "Comment" k = false) :
    (ItemUpdateData.assign d k v).1.Comment = d.Comment := by
  unfold ItemUpdateData.assign
  split_ifs <;> simp_all

theorem itemUpdate_keeps_Labels (d : ItemUpdateData) (k : String) (v : Json)
    (h : keyMatches "Labels" k = false) :
    (ItemUpdateData.assign d k v).1.Labels = d.Labels := by
  unfold ItemUpdateData.assign
  split_ifs <;> simp_all

theorem itemUpdate_keeps_Categories (d : ItemUpdateData) (k : String) (v : Json)
    (h : keyMatches "Categories" k = false) :
    (ItemUpdateData.assign d k v).1.Categories = d.Categories := by
  unfold ItemUpdateData.assign
  split_ifs <;> simp_all

theorem itemData_skips_Timestamp (d : ItemData) (v : Json) :
    (ItemData.assign d "Timestamp" v).1 = d := by
  simp +decide [ItemData.assign]

/-! ## Lemmas on the encoder: the text written determines the slice -/

theorem hexValue_hexDigit_fin : ∀ a : Fin 16, hexValue (hexDigit a.1) = a.1 := by
  decide

theorem hexValue_hexDigit (n : Nat) : hexValue (hexDigit (n % 16)) = n % 16 :=
  hexValue_hexDigit_fin ⟨n % 16, Nat.mod_lt _ (by decide)⟩

theorem escaped_lt (c : Char)
    (h : c.toNat < 32 ∨ c = '<' ∨ c = '>' ∨ c = '&' ∨ c.toNat = 0x2028 ∨ c.toNat = 0x2029) :
    c.toNat < 65536 := by
  rcases h with h | h | h | h | h | h
  · omega
  · subst h; decide
  · subst h; decide
  · subst h; decide
  · omega
  · omega

theorem unescapeRune_unicodeEscape (c : Char) (r : List Char) (h : c.toNat < 65536) :
    unescapeRune (unicodeEscape c.toNat ++ r) = some (c, r) := by
  have hb : backslash = backslash := rfl
  have hu : ('u' : Char) = 'u' := rfl
  simp only [unicodeEscape, List.cons_append, List.nil_append, unescapeRune, hb, hu, if_true,
    hexValue_hexDigit]
  have : 4096 * (c.toNat / 4096 % 16) + 256 * (c.toNat / 256 % 16) + 16 * (c.toNat / 16 % 16)
      + c.toNat % 16 = c.toNat := by omega
  rw [this, Char.ofNat_toNat]

theorem unescapeRune_escapeRune (c : Char) (r : List Char) :
    unescapeRune (escapeRune c ++ r) = some (c, r) := by
  unfold escapeRune
  split_ifs with a1 a2 a3 a4 a5 a6 a7
  · rcases a1 with a | a <;> subst a <;> simp +decide [unescapeRune]
  · subst a2; simp +decide [unescapeRune]
  · subst a3; simp +decide [unescapeRune]
  · subst a4; simp +decide [unescapeRune]
  · subst a5; simp +decide [unescapeRune]
  · subst a6; simp +decide [unescapeRune]
  · exact unescapeRune_unicodeEscape c r (escaped_lt c a7)
  · have : c ≠ backslash := fun h => a1 (Or.inr h)
    simp [unescapeRune, this]

theorem escapeRune_unique (c k : Char) (r t : List Char)
    (h : escapeRune c ++ r = escapeRune k ++ t) : c = k ∧ r = t := by
  have h1 := unescapeRune_escapeRune c r
  rw [h, unescapeRune_escapeRune] at h1
  simpa using h1.symm

theorem escapeRune_head (c : Char) : ∃ x rest, escapeRune c = x :: rest ∧ x ≠ quote := by
  unfold escapeRune
  split_ifs with a1 a2 a3 a4 a5 a6 a7
  · exact ⟨_, _, rfl, by decide⟩
  · exact ⟨_, _, rfl, by decide⟩
  · exact ⟨_, _, rfl, by decide⟩
  · exact ⟨_, _, rfl, by decide⟩
  · exact ⟨_, _, rfl, by decide⟩
  · exact ⟨_, _, rfl, by decide⟩
  · exact ⟨_, _, rfl, by decide⟩
  · exact ⟨_, _, rfl, fun h => a1 (Or.inl h)⟩

theorem escaped_unique (xs ys : List Char) (r t : List Char)
    (h : xs.flatMap escapeRune ++ quote :: r = ys.flatMap escapeRune ++ quote :: t) :
    xs = ys ∧ r = t := by
  induction xs generalizing ys with
  | nil =>
    cases ys with
    | nil => simpa using h
    | cons k ks =>
      obtain ⟨x, rest, hk, hx⟩ := escapeRune_head k
      simp only [List.flatMap_nil, List.nil_append, List.flatMap_cons, hk, List.cons_append,
        List.cons.injEq] at h
      exact absurd h.1.symm hx
  | cons c cs ih =>
    cases ys with
    | nil =>
      obtain ⟨x, rest, hk, hx⟩ := escapeRune_head c
      simp only [List.flatMap_nil, List.nil_append, List.flatMap_cons, hk, List.cons_append,
        List.cons.injEq] at h
      exact absurd h.1 hx
    | cons k ks =>
      simp only [List.flatMap_cons, List.append_assoc] at h
      obtain ⟨hc, hr⟩ := escapeRune_unique c k _ _ h
      obtain ⟨hs, ht⟩ := ih ks hr
      exact ⟨by rw [hc, hs], ht⟩

theorem encodeString_unique (s u : String) (r t : List Char)
    (h : encodeString s ++ r = encodeString u ++ t) : s = u ∧ r = t := by
  simp only [encodeString, List.cons_append, List.append_assoc, List.nil_append,
    List.cons.injEq, true_and] at h
  obtain ⟨hd, hr⟩ := escaped_unique _ _ _ _ h
  exact ⟨String.ext hd, hr⟩

theorem encodeElems_cons_head (x : String) (xs : List String) :
    ∃ rest, encodeElems (x :: xs) = quote :: rest := by
  cases xs with
  | nil => exact ⟨_, rfl⟩
  | cons y ys => exact ⟨_, rfl⟩

theorem encodeElems_unique (xs ys : List String) (r t : List Char)
    (h : encodeElems xs ++ ']' :: r = encodeElems ys ++ ']' :: t) : xs = ys := by
  induction xs generalizing ys with
  | nil =>
    cases ys with
    | nil => rfl
    | cons y ys =>
      obtain ⟨rest, hy⟩ := encodeElems_cons_head y ys
      rw [hy] at h
      simp +decide [encodeElems] at h
  | cons x xs ih =>
    cases ys with
    | nil =>
      obtain ⟨rest, hx⟩ := encodeElems_cons_head x xs
      rw [hx] at h
      simp +decide [encodeElems] at h
    | cons y ys =>
      cases xs with
      | nil =>
        cases ys with
        | nil =>
          simp only [encodeElems] at h
          rw [(encodeString_unique x y _ _ h).1]
        | cons y2 ys =>
          simp only [encodeElems, List.append_assoc, List.cons_append] at h
          have h2 := (encodeString_unique x y _ _ h).2
          simp +decide at h2
      | cons x2 xs =>
        cases ys with
        | nil =>
          simp only [encodeElems, List.append_assoc, List.cons_append] at h
          have h2 := (encodeString_unique x y _ _ h).2
          simp +decide at h2
        | cons y2 ys =>
          simp only [encodeElems, List.append_assoc, List.cons_append] at h
          obtain ⟨hxy, h2⟩ := encodeString_unique x y _ _ h
          simp only [List.cons.injEq, true_and] at h2
          rw [hxy, ih (y2 :: ys) h2]

theorem Encode_injective (a b : Slice) (h : Encode a = Encode b) : a = b := by
  cases a with
  | none =>
    cases b with
    | none => rfl
    | some ys =>
      have h2 := congrArg (fun s => s.data.head?) h
      revert h2
      simp +decide [Encode]
  | some xs =>
    cases b with
    | none =>
      have h2 := congrArg (fun s => s.data.head?) h
      revert h2
      simp +decide [Encode]
    | some ys =>
      have h2 := congrArg String.data h
      simp only [Encode, List.cons.injEq, true_and] at h2
      rw [encodeElems_unique xs ys _ _ h2]

/-! ## Properties -/

/-- C5: each of the five mutating handlers answers status 200 with body `OK`, whatever the
request (its body included) and whatever the backend returns. -/
theorem mutating_handlers_always_ok (r : Request) (h : List (String × String)) (env : World) :
    (insertUser r { header := h } env).1 = { header := h, status := some 200, body := "OK" } ∧
    (updateUser r { header := h } env).1 = { header := h, status := some 200, body := "OK" } ∧
    (insertItem r { header := h } env).1 = { header := h, status := some 200, body := "OK" } ∧
    (updateItem r { header := h } env).1 = { header := h, status := some 200, body := "OK" } ∧
    (insertFeedbacks r { header := h } env).1
      = { header := h, status := some 200, body := "OK" } := by
  refine ⟨?_, ?_, ?_, ?_, ?_⟩ <;>
    simp [insertUser, updateUser, insertItem, updateItem, insertFeedbacks, World.exec, World.Now,
      ResponseWriter.WriteHeader, ResponseWriter.Write]

/-- C3: when the body of a feedback request decodes to `(FeedbackType, UserId, ItemId)`, the
handler makes one backend call, `InsertFeedback`, with a batch of exactly one record carrying
these three values and the RFC3339 form of the one clock reading taken while handling. -/
theorem insertFeedbacks_sends_one_record (r : Request) (w : ResponseWriter) (env : World)
    (ft u i : String)
    (hd : (Decode FeedbackData.assign {} r.Body).1
      = { FeedbackType := ft, UserID := u, ItemID := i }) :
    (insertFeedbacks r w env).2.calls
        = env.calls ++ [Call.InsertFeedback
            [{ FeedbackType := ft, UserId := u, ItemId := i,
               Timestamp := formatRFC3339 (env.clock env.reads) }]] ∧
      (insertFeedbacks r w env).2.reads = env.reads + 1 := by
  simp [insertFeedbacks, World.exec, World.Now, hd]

/-- Witness of C3: the body with `FeedbackType` like, `UserId` u1, `ItemId` i1. -/
theorem insertFeedbacks_sends_one_record_witness :
    (Decode FeedbackData.assign {}
        (sampleRequest "POST" "/feedback/insert"
          (.value (.obj [("FeedbackType", .str "like"), ("UserId", .str "u1"),
            ("ItemId", .str "i1")]))).Body).1
      = { FeedbackType := "like", UserID := "u1", ItemID := "i1" } ∧
    (insertFeedbacks
        (sampleRequest "POST" "/feedback/insert"
          (.value (.obj [("FeedbackType", .str "like"), ("UserId", .str "u1"),
            ("ItemId", .str "i1")]))) {} (sampleWorld sampleClient)).2.calls
      = [Call.InsertFeedback
          [{ FeedbackType := "like", UserId := "u1", ItemId := "i1",
             Timestamp := "2026-11-01T12:00:00Z" }]] :=
  ⟨by decide,
    (insertFeedbacks_sends_one_record _ {} (sampleWorld sampleClient) "like" "u1" "i1"
      (by decide)).1⟩

/-- C10: `Logger next` reads the clock, runs `next` once, reads the clock again and appends one
log entry.  Its response is the response of that run of `next`; the world after it is the world
`next` left, with the second reading taken and, at the end of the log, one entry made of the
request's method, request URI, the monotonic time between the two readings, and user agent.
For each handler of the route table the response is also the one the handler gives when run
without `Logger` in the same world. -/
theorem Logger_transparent (next : Handler) (r : Request) (w : ResponseWriter) (env : World) :
    (Logger next r w env).1 = (next r w env.Now.2).1 ∧
    (Logger next r w env).2
      = (next r w env.Now.2).2.Now.2.Printf
          { method := r.Method, requestURI := r.RequestURI,
            elapsed := (next r w env.Now.2).2.Now.1.mono - env.Now.1.mono,
            userAgent := r.UserAgent } ∧
    (Logger next r w env).2.calls = (next r w env.Now.2).2.calls ∧
    (Logger next r w env).2.logs
      = (next r w env.Now.2).2.logs ++
          [{ method := r.Method, requestURI := r.RequestURI,
             elapsed := (next r w env.Now.2).2.Now.1.mono - env.Now.1.mono,
             userAgent := r.UserAgent }] ∧
    (Logger rootHandler r w env).1 = (rootHandler r w env).1 ∧
    (Logger insertUser r w env).1 = (insertUser r w env).1 ∧
    (Logger updateUser r w env).1 = (updateUser r w env).1 ∧
    (Logger insertItem r w env).1 = (insertItem r w env).1 ∧
    (Logger updateItem r w env).1 = (updateItem r w env).1 ∧
    (Logger insertFeedbacks r w env).1 = (insertFeedbacks r w env).1 ∧
    (Logger getRecommend r w env).1 = (getRecommend r w env).1 := by
  refine ⟨?_, ?_, ?_, ?_, ?_, ?_, ?_, ?_, ?_, ?_, ?_⟩ <;>
    simp [Logger, World.Now, World.Printf, rootHandler, insertUser, updateUser, insertItem,
      updateItem, insertFeedbacks, getRecommend, World.exec, World.GetRecommend]

/-- C2, evaluated: two item updates that differ only in `IsHidden` hand the same patch to the
backend, and its `IsHidden` is nil. -/
theorem updateItem_drops_IsHidden :
    (updateItem
        (sampleRequest "PATCH" "/item/update"
          (.value (.obj [("ItemId", .str "i1"), ("IsHidden", .bool true)])))
        {} (sampleWorld sampleClient)).2.calls
      = [Call.UpdateItem "i1"
          { IsHidden := none, Categories := none, Timestamp := some (sampleClock 0),
            Labels := none, Comment := some "" }] ∧
    (updateItem
        (sampleRequest "PATCH" "/item/update"
          (.value (.obj [("ItemId", .str "i1"), ("IsHidden", .bool false)])))
        {} (sampleWorld sampleClient)).2.calls
      = [Call.UpdateItem "i1"
          { IsHidden := none, Categories := none, Timestamp := some (sampleClock 0),
            Labels := none, Comment := some "" }] ∧
    (Decode ItemUpdateData.assign {}
        (.value (.obj [("ItemId", .str "i1"), ("IsHidden", .bool true)]))).1.IsHidden = true := by
  decide

theorem getRecommend_returns_list_aux (r : Request) (h : List (String × String))
    (env : World) (L : Slice) (err : Error)
    (hb : env.gorse.recommend env.calls
        (.GetRecommend (Decode RecommendData.assign {} r.Body).1.UserID ""
          (Decode RecommendData.assign {} r.Body).1.N) = (L, err)) :
    (getRecommend r { header := h } env).1
      = { header := h, status := some 200, body := Encode L } := by
  simp [getRecommend, World.GetRecommend, ResponseWriter.WriteHeader, ResponseWriter.Write, hb]

/-- C4: whatever slice `L` the backend returns for `GetRecommend(userId, "", n)`, the handler
answers status 200 and its body is what the JSON encoder writes for `L`, whatever `n` is; `L`
is the only slice with this encoding, so the body holds the elements of `L`, all of them and
no other, in the order of `L`. -/
theorem getRecommend_returns_backend_list (r : Request) (h : List (String × String))
    (env : World) (L : Slice) (err : Error)
    (hb : env.gorse.recommend env.calls
        (.GetRecommend (Decode RecommendData.assign {} r.Body).1.UserID ""
          (Decode RecommendData.assign {} r.Body).1.N) = (L, err)) :
    (getRecommend r { header := h } env).1
      = { header := h, status := some 200, body := Encode L } ∧
    ∀ K : Slice, (getRecommend r { header := h } env).1.body = Encode K → K = L := by
  have hr := getRecommend_returns_list_aux r h env L err hb
  refine ⟨hr, fun K hK => ?_⟩
  rw [hr] at hK
  exact (Encode_injective L K hK).symm

/-- Witness of C4: `n = 5` and a backend returning `i1`, `i2`, `i3`. -/
theorem getRecommend_returns_backend_list_witness :
    (sampleWorld sampleClient).gorse.recommend (sampleWorld sampleClient).calls
        (.GetRecommend "u1" "" 5) = (some ["i1", "i2", "i3"], none) ∧
    (getRecommend
        (sampleRequest "GET" "/recommend/get"
          (.value (.obj [("userId", .str "u1"), ("n", .int 5)])))
        {} (sampleWorld sampleClient)).1
      = { header := [], status := some 200,
          body := String.mk ([ '[', quote, 'i', '1', quote, ',', quote, 'i', '2', quote, ',',
            quote, 'i', '3', quote, ']', Char.ofNat 10]) } :=
  ⟨rfl,
    (getRecommend_returns_backend_list
      (sampleRequest "GET" "/recommend/get"
        (.value (.obj [("userId", .str "u1"), ("n", .int 5)])))
      [] (sampleWorld sampleClient) (some ["i1", "i2", "i3"]) none rfl).1⟩

/-- C7: `insertUser` and `insertItem` hand the decoded fields to the backend as they are, and an
item's `Timestamp` is the RFC3339 form of the clock reading taken while handling.  For a body
whose fields are well typed the values are those of the body, label and category order and
duplicates included, and a `Timestamp` member of the body, wherever it stands and whatever it
holds, changes nothing. -/
theorem insert_passes_fields_verbatim (m p uri ua : String) (w : ResponseWriter) (env : World) :
    (∀ b : Body,
      (insertUser ⟨m, p, uri, ua, b⟩ w env).2.calls
        = env.calls ++ [Call.InsertUser
            { UserId := (Decode UserData.assign {} b).1.UserID,
              Comment := (Decode UserData.assign {} b).1.Comment,
              Labels := (Decode UserData.assign {} b).1.Labels }]) ∧
    (∀ b : Body,
      (insertItem ⟨m, p, uri, ua, b⟩ w env).2.calls
        = env.calls ++ [Call.InsertItem
            { ItemId := (Decode ItemData.assign {} b).1.ItemID,
              Comment := (Decode ItemData.assign {} b).1.Comment,
              Categories := (Decode ItemData.assign {} b).1.Categories,
              Labels := (Decode ItemData.assign {} b).1.Labels,
              Timestamp := formatRFC3339 (env.clock env.reads) }]) ∧
    (∀ (u c : String) (ls : List String),
      (insertUser ⟨m, p, uri, ua, .value (.obj [("UserId", .str u), ("Comment", .str c),
          ("Labels", .arr (ls.map Json.str))])⟩ w env).2.calls
        = env.calls ++ [Call.InsertUser { UserId := u, Comment := c, Labels := some ls }]) ∧
    (∀ (i c : String) (cs ls : List String) (ts : Json),
      (insertItem ⟨m, p, uri, ua, .value (.obj [("Timestamp", ts), ("ItemId", .str i),
          ("Comment", .str c), ("Categories", .arr (cs.map Json.str)),
          ("Labels", .arr (ls.map Json.str))])⟩ w env).2.calls
        = env.calls ++ [Call.InsertItem
            { ItemId := i, Comment := c, Categories := some cs, Labels := some ls,
              Timestamp := formatRFC3339 (env.clock env.reads) }]) ∧
    (∀ (pre post : List (String × Json)) (ts : Json),
      (insertItem ⟨m, p, uri, ua, .value (.obj (pre ++ ("Timestamp", ts) :: post))⟩ w env).2.calls
        = (insertItem ⟨m, p, uri, ua, .value (.obj (pre ++ post))⟩ w env).2.calls) := by
  refine ⟨?_, ?_, ?_, ?_, ?_⟩
  · intro b
    simp [insertUser, World.exec]
  · intro b
    simp [insertItem, World.exec, World.Now]
  · intro u c ls
    simp +decide [insertUser, World.exec, Decode, decodeObject, UserData.assign, storeString,
      storeSlice, storeElems_strs]
  · intro i c cs ls ts
    simp +decide [insertItem, World.exec, World.Now, Decode, decodeObject, ItemData.assign,
      storeString, storeSlice, storeElems_strs]
  · intro pre post ts
    have hd : (Decode ItemData.assign {} (.value (.obj (pre ++ ("Timestamp", ts) :: post)))).1
        = (Decode ItemData.assign {} (.value (.obj (pre ++ post)))).1 := by
      simp only [Decode, decodeObject_append, decodeObject, itemData_skips_Timestamp]
    simp [insertItem, World.exec, World.Now, hd]

/-- C8, refuted: with the backend unreachable the handler still answers 200, and the body is
the JSON literal `null`, which is not an array. -/
theorem getRecommend_error_body_is_null :
    (getRecommend
        (sampleRequest "GET" "/recommend/get"
          (.value (.obj [("userId", .str "u1"), ("n", .int 5)])))
        {} (sampleWorld downClient)).1
      = { header := [], status := some 200, body := "null\n" } ∧
    ¬ IsIdentifierArray
      (getRecommend
        (sampleRequest "GET" "/recommend/get"
          (.value (.obj [("userId", .str "u1"), ("n", .int 5)])))
        {} (sampleWorld downClient)).1.body := by
  refine ⟨by decide, ?_⟩
  rintro ⟨xs, h⟩
  have h2 := congrArg (fun s => s.data.head?) h
  revert h2
  simp +decide [Encode]

/-- C8, amended: `getRecommend` always answers 200; the body is an array of identifiers when
the slice returned by the backend is not nil, and the literal `null` when it is nil. -/
theorem getRecommend_array_unless_nil (r : Request) (h : List (String × String)) (env : World)
    (L : Slice) (err : Error)
    (hb : env.gorse.recommend env.calls
        (.GetRecommend (Decode RecommendData.assign {} r.Body).1.UserID ""
          (Decode RecommendData.assign {} r.Body).1.N) = (L, err)) :
    (getRecommend r { header := h } env).1.status = some 200 ∧
    (getRecommend r { header := h } env).1.header = h ∧
    (L ≠ none → IsIdentifierArray (getRecommend r { header := h } env).1.body) ∧
    (L = none → (getRecommend r { header := h } env).1.body = "null\n") := by
  have hr := getRecommend_returns_list_aux r h env L err hb
  refine ⟨by rw [hr], by rw [hr], ?_, ?_⟩
  · intro hL
    cases L with
    | none => exact absurd rfl hL
    | some xs => exact ⟨xs, by rw [hr]⟩
  · intro hL
    subst hL
    rw [hr]
    rfl

/-- Witness of the amended C8: the unreachable backend returns the nil slice and an error. -/
theorem getRecommend_array_unless_nil_witness :
    (sampleWorld downClient).gorse.recommend (sampleWorld downClient).calls
        (.GetRecommend "u1" "" 5) = (none, some "connection refused") ∧
    (getRecommend
        (sampleRequest "GET" "/recommend/get"
          (.value (.obj [("userId", .str "u1"), ("n", .int 5)])))
        {} (sampleWorld downClient)).1.body = "null\n" :=
  ⟨rfl,
    (getRecommend_array_unless_nil
      (sampleRequest "GET" "/recommend/get"
        (.value (.obj [("userId", .str "u1"), ("n", .int 5)])))
      [] (sampleWorld downClient) none (some "connection refused") rfl).2.2.2 rfl⟩

/-- C9, refuted: `/` is registered for every method, and a CORS preflight for it (`OPTIONS`
with `Access-Control-Request-Method`) is answered by the CORS middleware: status 204, empty
body, no handler run, nothing called and nothing logged. -/
theorem preflight_root_answered_by_cors :
    (routes.filter (fun rt => rt.matches (sampleRequest "OPTIONS" "/" Body.empty))).length = 1 ∧
    (ServeHTTP sampleCors
        [("Origin", "http://localhost:3000"), ("Access-Control-Request-Method", "GET")]
        (sampleRequest "OPTIONS" "/" Body.empty) {} (sampleWorld sampleClient)).map
        (fun out => (out.1, out.2.calls, out.2.logs, out.2.reads))
      = some ({ header := [("Access-Control-Allow-Origin", "*"),
                  ("Access-Control-Allow-Methods", "GET")],
                status := some 204, body := "" }, [], [], 0) := by
  decide

/-- C9, amended: for each registered method and path exactly one route matches, the router
runs that route's handler (inside `Logger`, after the CORS middlewares have written their
header fields), and the handler makes exactly one backend call, of the operation of its route,
`GetRecommend` with the empty category.  A request for `/`, whatever its method, matches only
the root route; unless it is a CORS preflight the root handler runs, calls nothing and answers
200 with the welcome text; a preflight is answered by the CORS middleware with status 204 and
an empty body, no handler runs, nothing is called and nothing is logged. -/
theorem routes_dispatch_one_call (c : CorsHeaders) (hdr : Header) (uri ua : String) (b : Body)
    (h : Header) (env : World) :
    (∀ m : String,
      (routes.filter (fun rt => rt.matches ⟨m, "/", uri, ua, b⟩)).length = 1 ∧
      (isPreflight ⟨m, "/", uri, ua, b⟩ hdr = false →
        ServeHTTP c hdr ⟨m, "/", uri, ua, b⟩ { header := h } env
          = some (Logger rootHandler ⟨m, "/", uri, ua, b⟩
              { header := c.actual ⟨m, "/", uri, ua, b⟩ hdr
                  (c.allowMethods ⟨m, "/", uri, ua, b⟩ hdr h) } env) ∧
        (ServeHTTP c hdr ⟨m, "/", uri, ua, b⟩ { header := h } env).map
            (fun out => (out.1, out.2.calls))
          = some ({ header := c.actual ⟨m, "/", uri, ua, b⟩ hdr
                      (c.allowMethods ⟨m, "/", uri, ua, b⟩ hdr h),
                    status := some 200, body := "Welcome to port 6666" },
              env.calls)) ∧
      (isPreflight ⟨m, "/", uri, ua, b⟩ hdr = true →
        ServeHTTP c hdr ⟨m, "/", uri, ua, b⟩ { header := h } env
          = some ({ header := c.preflight ⟨m, "/", uri, ua, b⟩ hdr
                      (c.allowMethods ⟨m, "/", uri, ua, b⟩ hdr h),
                    status := some 204, body := "" }, env))) ∧
    ((routes.filter (fun rt => rt.matches ⟨"POST", "/user/insert", uri, ua, b⟩)).length = 1 ∧
      ServeHTTP c hdr ⟨"POST", "/user/insert", uri, ua, b⟩ { header := h } env
        = some (Logger insertUser ⟨"POST", "/user/insert", uri, ua, b⟩
            { header := c.actual ⟨"POST", "/user/insert", uri, ua, b⟩ hdr
                (c.allowMethods ⟨"POST", "/user/insert", uri, ua, b⟩ hdr h) } env) ∧
      (ServeHTTP c hdr ⟨"POST", "/user/insert", uri, ua, b⟩ { header := h } env).map
          (fun out => out.2.calls)
        = some (env.calls ++ [Call.InsertUser
            { UserId := (Decode UserData.assign {} b).1.UserID,
              Comment := (Decode UserData.assign {} b).1.Comment,
              Labels := (Decode UserData.assign {} b).1.Labels }])) ∧
    ((routes.filter (fun rt => rt.matches ⟨"PATCH", "/user/update", uri, ua, b⟩)).length = 1 ∧
      ServeHTTP c hdr ⟨"PATCH", "/user/update", uri, ua, b⟩ { header := h } env
        = some (Logger updateUser ⟨"PATCH", "/user/update", uri, ua, b⟩
            { header := c.actual ⟨"PATCH", "/user/update", uri, ua, b⟩ hdr
                (c.allowMethods ⟨"PATCH", "/user/update", uri, ua, b⟩ hdr h) } env) ∧
      (ServeHTTP c hdr ⟨"PATCH", "/user/update", uri, ua, b⟩ { header := h } env).map
          (fun out => out.2.calls)
        = some (env.calls ++ [Call.UpdateUser (Decode UserData.assign {} b).1.UserID
            { Comment := some (Decode UserData.assign {} b).1.Comment,
              Labels := (Decode UserData.assign {} b).1.Labels }])) ∧
    ((routes.filter (fun rt => rt.matches ⟨"POST", "/item/insert", uri, ua, b⟩)).length = 1 ∧
      ServeHTTP c hdr ⟨"POST", "/item/insert", uri, ua, b⟩ { header := h } env
        = some (Logger insertItem ⟨"POST", "/item/insert", uri, ua, b⟩
            { header := c.actual ⟨"POST", "/item/insert", uri, ua, b⟩ hdr
                (c.allowMethods ⟨"POST", "/item/insert", uri, ua, b⟩ hdr h) } env) ∧
      ∃ item : Item,
        (ServeHTTP c hdr ⟨"POST", "/item/insert", uri, ua, b⟩ { header := h } env).map
            (fun out => out.2.calls)
          = some (env.calls ++ [Call.InsertItem item])) ∧
    ((routes.filter (fun rt => rt.matches ⟨"PATCH", "/item/update", uri, ua, b⟩)).length = 1 ∧
      ServeHTTP c hdr ⟨"PATCH", "/item/update", uri, ua, b⟩ { header := h } env
        = some (Logger updateItem ⟨"PATCH", "/item/update", uri, ua, b⟩
            { header := c.actual ⟨"PATCH", "/item/update", uri, ua, b⟩ hdr
                (c.allowMethods ⟨"PATCH", "/item/update", uri, ua, b⟩ hdr h) } env) ∧
      ∃ patch : ItemPatch,
        (ServeHTTP c hdr ⟨"PATCH", "/item/update", uri, ua, b⟩ { header := h } env).map
            (fun out => out.2.calls)
          = some (env.calls ++ [Call.UpdateItem (Decode ItemUpdateData.assign {} b).1.ItemID
              patch])) ∧
    ((routes.filter (fun rt => rt.matches ⟨"POST", "/feedback/insert", uri, ua, b⟩)).length = 1 ∧
      ServeHTTP c hdr ⟨"POST", "/feedback/insert", uri, ua, b⟩ { header := h } env
        = some (Logger insertFeedbacks ⟨"POST", "/feedback/insert", uri, ua, b⟩
            { header := c.actual ⟨"POST", "/feedback/insert", uri, ua, b⟩ hdr
                (c.allowMethods ⟨"POST", "/feedback/insert", uri, ua, b⟩ hdr h) } env) ∧
      ∃ fb : Feedback,
        (ServeHTTP c hdr ⟨"POST", "/feedback/insert", uri, ua, b⟩ { header := h } env).map
            (fun out => out.2.calls)
          = some (env.calls ++ [Call.InsertFeedback [fb]])) ∧
    ((routes.filter (fun rt => rt.matches ⟨"GET", "/recommend/get", uri, ua, b⟩)).length = 1 ∧
      ServeHTTP c hdr ⟨"GET", "/recommend/get", uri, ua, b⟩ { header := h } env
        = some (Logger getRecommend ⟨"GET", "/recommend/get", uri, ua, b⟩
            { header := c.actual ⟨"GET", "/recommend/get", uri, ua, b⟩ hdr
                (c.allowMethods ⟨"GET", "/recommend/get", uri, ua, b⟩ hdr h) } env) ∧
      (ServeHTTP c hdr ⟨"GET", "/recommend/get", uri, ua, b⟩ { header := h } env).map
          (fun out => out.2.calls)
        = some (env.calls ++ [Call.GetRecommend (Decode RecommendData.assign {} b).1.UserID ""
            (Decode RecommendData.assign {} b).1.N])) := by
  refine ⟨?_, ?_, ?_, ?_, ?_, ?_, ?_⟩
  · intro m
    refine ⟨by simp +decide [routes, Route.matches], fun hp => ?_, fun hp => ?_⟩
    · simp +decide [routes, ServeHTTP, Route.matches, CORSMethodMiddleware, corsHandler, hp,
        Logger, rootHandler, World.Now, World.Printf, ResponseWriter.WriteHeader,
        ResponseWriter.Write]
    · simp +decide [routes, ServeHTTP, Route.matches, CORSMethodMiddleware, corsHandler, hp,
        ResponseWriter.WriteHeader]
  · simp +decide [routes, ServeHTTP, Route.matches, CORSMethodMiddleware, corsHandler,
      isPreflight, Logger, insertUser, World.Now, World.Printf, World.exec]
  · simp +decide [routes, ServeHTTP, Route.matches, CORSMethodMiddleware, corsHandler,
      isPreflight, Logger, updateUser, World.Now, World.Printf, World.exec]
  · simp +decide [routes, ServeHTTP, Route.matches, CORSMethodMiddleware, corsHandler,
      isPreflight, Logger, insertItem, World.Now, World.Printf, World.exec]
  · simp +decide [routes, ServeHTTP, Route.matches, CORSMethodMiddleware, corsHandler,
      isPreflight, Logger, updateItem, World.Now, World.Printf, World.exec]
  · simp +decide [routes, ServeHTTP, Route.matches, CORSMethodMiddleware, corsHandler,
      isPreflight, Logger, insertFeedbacks, World.Now, World.Printf, World.exec]
  · simp +decide [routes, ServeHTTP, Route.matches, CORSMethodMiddleware, corsHandler,
      isPreflight, Logger, getRecommend, World.Now, World.Printf, World.GetRecommend]

/-- Witness of the amended C9: `GET /` without CORS fields is not a preflight and gets the
welcome text; `OPTIONS /` carrying `Access-Control-Request-Method` is a preflight and gets
status 204 from the middleware. -/
theorem routes_dispatch_one_call_witness :
    isPreflight ⟨"GET", "/", "/", "curl/8.5.0", Body.empty⟩ [] = false ∧
    (ServeHTTP sampleCors [] ⟨"GET", "/", "/", "curl/8.5.0", Body.empty⟩ { header := [] }
        (sampleWorld sampleClient)).map (fun out => (out.1, out.2.calls))
      = some ({ header := [("Access-Control-Allow-Origin", "*")], status := some 200,
                body := "Welcome to port 6666" }, []) ∧
    isPreflight ⟨"OPTIONS", "/", "/", "curl/8.5.0", Body.empty⟩
        [("Access-Control-Request-Method", "GET")] = true ∧
    ((ServeHTTP sampleCors [("Access-Control-Request-Method", "GET")]
        ⟨"OPTIONS", "/", "/", "curl/8.5.0", Body.empty⟩ { header := [] }
        (sampleWorld sampleClient)).map (fun out => out.1.status)) = some (some 204) :=
  ⟨by decide,
    (((routes_dispatch_one_call sampleCors [] "/" "curl/8.5.0" Body.empty []
      (sampleWorld sampleClient)).1 "GET").2.1 (by decide)).2,
    by decide,
    congrArg (Option.map (fun out => out.1.status))
      ((((routes_dispatch_one_call sampleCors [("Access-Control-Request-Method", "GET")] "/"
        "curl/8.5.0" Body.empty [] (sampleWorld sampleClient)).1 "OPTIONS").2.2) (by decide))⟩

/-- C1, refuted: a user update and an item update whose bodies omit `Comment` hand the backend
a patch whose `Comment` is a pointer to the empty string, the very patch produced by a body
that supplies `Comment` as the empty string. -/
theorem update_omitted_comment_is_empty_string :
    omits "Comment" [("UserId", .str "u1")] = true ∧
    (updateUser (sampleRequest "PATCH" "/user/update" (.value (.obj [("UserId", .str "u1")])))
        {} (sampleWorld sampleClient)).2.calls
      = [Call.UpdateUser "u1" { Comment := some "", Labels := none }] ∧
    (updateUser
        (sampleRequest "PATCH" "/user/update"
          (.value (.obj [("UserId", .str "u1"), ("Comment", .str "")])))
        {} (sampleWorld sampleClient)).2.calls
      = [Call.UpdateUser "u1" { Comment := some "", Labels := none }] ∧
    omits "Comment" [("ItemId", .str "i1")] = true ∧
    (updateItem (sampleRequest "PATCH" "/item/update" (.value (.obj [("ItemId", .str "i1")])))
        {} (sampleWorld sampleClient)).2.calls
      = [Call.UpdateItem "i1"
          { IsHidden := none, Categories := none, Timestamp := some (sampleClock 0),
            Labels := none, Comment := some "" }] := by
  decide

/-- C1, amended: the patch of `updateUser` and of `updateItem` always carries `Comment` as a
non-nil pointer to the decoded string, which is empty when the body omits `Comment`; `Labels`
and `Categories` are the decoded slices, nil when the body omits them and non-nil of length 0
when the member that decides them is an empty array. -/
theorem update_patch_comment_present (m p uri ua : String) (w : ResponseWriter) (env : World) :
    (∀ b : Body,
      (updateUser ⟨m, p, uri, ua, b⟩ w env).2.calls
        = env.calls ++ [Call.UpdateUser (Decode UserData.assign {} b).1.UserID
            { Comment := some (Decode UserData.assign {} b).1.Comment,
              Labels := (Decode UserData.assign {} b).1.Labels }]) ∧
    (∀ b : Body, ∃ patch : ItemPatch,
      (updateItem ⟨m, p, uri, ua, b⟩ w env).2.calls
        = env.calls ++ [Call.UpdateItem (Decode ItemUpdateData.assign {} b).1.ItemID patch] ∧
      patch.Comment = some (Decode ItemUpdateData.assign {} b).1.Comment ∧
      patch.Categories = (Decode ItemUpdateData.assign {} b).1.Categories ∧
      patch.Labels = (Decode ItemUpdateData.assign {} b).1.Labels) ∧
    (∀ ms : List (String × Json), omits "Comment" ms = true →
      (Decode UserData.assign {} (.value (.obj ms))).1.Comment = "" ∧
      (Decode ItemUpdateData.assign {} (.value (.obj ms))).1.Comment = "") ∧
    (∀ ms : List (String × Json), omits "Labels" ms = true →
      (Decode UserData.assign {} (.value (.obj ms))).1.Labels = none ∧
      (Decode ItemUpdateData.assign {} (.value (.obj ms))).1.Labels = none) ∧
    (∀ ms : List (String × Json), omits "Categories" ms = true →
      (Decode ItemUpdateData.assign {} (.value (.obj ms))).1.Categories = none) ∧
    (∀ pre post : List (String × Json), omits "Labels" post = true →
      (Decode UserData.assign {} (.value (.obj (pre ++ ("Labels", .arr []) :: post)))).1.Labels
        = some [] ∧
      (Decode ItemUpdateData.assign {}
        (.value (.obj (pre ++ ("Labels", .arr []) :: post)))).1.Labels = some []) ∧
    (∀ pre post : List (String × Json), omits "Categories" post = true →
      (Decode ItemUpdateData.assign {}
        (.value (.obj (pre ++ ("Categories", .arr []) :: post)))).1.Categories = some []) := by
  refine ⟨?_, ?_, ?_, ?_, ?_, ?_, ?_⟩
  · intro b
    simp [updateUser, World.exec]
  · intro b
    exact ⟨{ IsHidden := none, Categories := (Decode ItemUpdateData.assign {} b).1.Categories,
             Timestamp := some (env.clock env.reads),
             Labels := (Decode ItemUpdateData.assign {} b).1.Labels,
             Comment := some (Decode ItemUpdateData.assign {} b).1.Comment },
      by simp [updateItem, World.exec, World.Now], rfl, rfl, rfl⟩
  · intro ms h
    exact ⟨decodeObject_keeps UserData.assign (fun d => d.Comment) ms
        (fun d kv hk => userData_keeps_Comment d kv.1 kv.2 (omits_mem h kv hk)) {},
      decodeObject_keeps ItemUpdateData.assign (fun d => d.Comment) ms
        (fun d kv hk => itemUpdate_keeps_Comment d kv.1 kv.2 (omits_mem h kv hk)) {}⟩
  · intro ms h
    exact ⟨decodeObject_keeps UserData.assign (fun d => d.Labels) ms
        (fun d kv hk => userData_keeps_Labels d kv.1 kv.2 (omits_mem h kv hk)) {},
      decodeObject_keeps ItemUpdateData.assign (fun d => d.Labels) ms
        (fun d kv hk => itemUpdate_keeps_Labels d kv.1 kv.2 (omits_mem h kv hk)) {}⟩
  · intro ms h
    exact decodeObject_keeps ItemUpdateData.assign (fun d => d.Categories) ms
      (fun d kv hk => itemUpdate_keeps_Categories d kv.1 kv.2 (omits_mem h kv hk)) {}
  · intro pre post h
    constructor
    · simp only [Decode, decodeObject_append, decodeObject]
      rw [decodeObject_keeps UserData.assign (fun d => d.Labels) post
        (fun d kv hk => userData_keeps_Labels d kv.1 kv.2 (omits_mem h kv hk))]
      simp +decide [UserData.assign, storeSlice, storeElems]
    · simp only [Decode, decodeObject_append, decodeObject]
      rw [decodeObject_keeps ItemUpdateData.assign (fun d => d.Labels) post
        (fun d kv hk => itemUpdate_keeps_Labels d kv.1 kv.2 (omits_mem h kv hk))]
      simp +decide [ItemUpdateData.assign, storeSlice, storeElems]
  · intro pre post h
    simp only [Decode, decodeObject_append, decodeObject]
    rw [decodeObject_keeps ItemUpdateData.assign (fun d => d.Categories) post
      (fun d kv hk => itemUpdate_keeps_Categories d kv.1 kv.2 (omits_mem h kv hk))]
    simp +decide [ItemUpdateData.assign, storeSlice, storeElems]

/-- Witness of the amended C1: a body with `UserId` alone, and one that adds `Labels` as the
empty array. -/
theorem update_patch_comment_present_witness :
    omits "Comment" [("UserId", .str "u1")] = true ∧
    (Decode UserData.assign {} (.value (.obj [("UserId", .str "u1")]))).1.Comment = "" ∧
    omits "Labels" [("UserId", .str "u1")] = true ∧
    (Decode UserData.assign {} (.value (.obj [("UserId", .str "u1")]))).1.Labels = none ∧
    omits "Labels" [] = true ∧
    (Decode UserData.assign {}
      (.value (.obj ([("UserId", .str "u1")] ++ ("Labels", .arr []) :: [])))).1.Labels
      = some [] :=
  ⟨by decide,
    ((update_patch_comment_present "PATCH" "/user/update" "/user/update" "curl/8.5.0" {}
      (sampleWorld sampleClient)).2.2.1 [("UserId", .str "u1")] (by decide)).1,
    by decide,
    ((update_patch_comment_present "PATCH" "/user/update" "/user/update" "curl/8.5.0" {}
      (sampleWorld sampleClient)).2.2.2.1 [("UserId", .str "u1")] (by decide)).1,
    by decide,
    ((update_patch_comment_present "PATCH" "/user/update" "/user/update" "curl/8.5.0" {}
      (sampleWorld sampleClient)).2.2.2.2.2.1 [("UserId", .str "u1")] [] (by decide)).1⟩

/-- C6, refuted: a body whose `Comment` is a number makes `Decode` fail, yet `UserId` keeps the
value of the body, and `insertUser` sends it to the backend. -/
theorem wrong_type_field_keeps_other_fields :
    Decode UserData.assign {} (.value (.obj [("UserId", .str "u1"), ("Comment", .int 5)]))
      = ({ UserID := "u1", Comment := "", Labels := none }, some DecodeError.mismatch) ∧
    (insertUser
        (sampleRequest "POST" "/user/insert"
          (.value (.obj [("UserId", .str "u1"), ("Comment", .int 5)])))
        {} (sampleWorld sampleClient)).2.calls
      = [Call.InsertUser { UserId := "u1", Comment := "", Labels := none }] := by
  decide

/-- C6, amended: when the body holds no JSON object (it is missing, is not JSON, or its value
is not an object) every handler decodes the zero-valued record, and the backend is called with
every caller-supplied field at its empty default. -/
theorem non_object_body_decodes_to_zero (r : Request) (w : ResponseWriter) (env : World)
    (hb : r.Body.isObject = false) :
    (Decode UserData.assign {} r.Body).1 = { UserID := "", Comment := "", Labels := none } ∧
    (Decode ItemData.assign {} r.Body).1
      = { ItemID := "", Comment := "", Categories := none, Labels := none } ∧
    (Decode ItemUpdateData.assign {} r.Body).1
      = { ItemID := "", Comment := "", IsHidden := false, Categories := none, Labels := none } ∧
    (Decode FeedbackData.assign {} r.Body).1 = { FeedbackType := "", UserID := "", ItemID := "" } ∧
    (Decode RecommendData.assign {} r.Body).1 = { N := 0, UserID := "" } ∧
    (insertUser r w env).2.calls
      = env.calls ++ [Call.InsertUser { UserId := "", Comment := "", Labels := none }] ∧
    (updateUser r w env).2.calls
      = env.calls ++ [Call.UpdateUser "" { Comment := some "", Labels := none }] ∧
    (insertItem r w env).2.calls
      = env.calls ++ [Call.InsertItem
          { ItemId := "", Comment := "", Categories := none, Labels := none,
            Timestamp := formatRFC3339 (env.clock env.reads) }] ∧
    (∃ patch : ItemPatch,
      (updateItem r w env).2.calls = env.calls ++ [Call.UpdateItem "" patch] ∧
      patch.Comment = some "" ∧ patch.Categories = none ∧ patch.Labels = none) ∧
    (insertFeedbacks r w env).2.calls
      = env.calls ++ [Call.InsertFeedback
          [{ FeedbackType := "", UserId := "", ItemId := "",
             Timestamp := formatRFC3339 (env.clock env.reads) }]] ∧
    (getRecommend r w env).2.calls = env.calls ++ [Call.GetRecommend "" "" 0] := by
  have h1 := Decode_not_object UserData.assign {} r.Body hb
  have h2 := Decode_not_object ItemData.assign {} r.Body hb
  have h3 := Decode_not_object ItemUpdateData.assign {} r.Body hb
  have h4 := Decode_not_object FeedbackData.assign {} r.Body hb
  have h5 := Decode_not_object RecommendData.assign {} r.Body hb
  refine ⟨h1, h2, h3, h4, h5, ?_, ?_, ?_, ?_, ?_, ?_⟩
  · simp [insertUser, World.exec, h1]
  · simp [updateUser, World.exec, h1]
  · simp [insertItem, World.exec, World.Now, h2]
  · exact ⟨{ IsHidden := none, Categories := none, Timestamp := some (env.clock env.reads),
             Labels := none, Comment := some "" },
      by simp [updateItem, World.exec, World.Now, h3], rfl, rfl, rfl⟩
  · simp [insertFeedbacks, World.exec, World.Now, h4]
  · simp [getRecommend, World.GetRecommend, h5]

/-- Witness of the amended C6: a body that is not JSON. -/
theorem non_object_body_decodes_to_zero_witness :
    (sampleRequest "POST" "/user/insert" Body.malformed).Body.isObject = false ∧
    (Decode UserData.assign {} (sampleRequest "POST" "/user/insert" Body.malformed).Body).2
      = some DecodeError.invalid ∧
    (insertUser (sampleRequest "POST" "/user/insert" Body.malformed) {}
        (sampleWorld downClient)).2.calls
      = [Call.InsertUser { UserId := "", Comment := "", Labels := none }] :=
  ⟨rfl, rfl,
    (non_object_body_decodes_to_zero (sampleRequest "POST" "/user/insert" Body.malformed) {}
      (sampleWorld downClient) rfl).2.2.2.2.2.1⟩

end Gorse
